import Mathlib

/-!
Formal model of `music_indexer.py`, a Google-Drive music catalog indexer.

The script walks a fixed four-level Drive hierarchy (configured root paths →
artist folders → instrument folders → song files), builds one catalog entry
per song keyed by Drive document id, stores the entries in a SQLite table and
publishes them, sorted case-insensitively by (artist, name, instrument), to a
Google Sheet with a hyperlinked name column.

The remote Drive service is modelled as a function from a folder id to the
list of files whose `parents` field contains that id (the listing query
`'<id>' in parents`); the sheet is modelled as its grid of cell strings; the
SQLite store as a list of rows.  Python `dict.get` misses are modelled with
`Option`, and the one runtime exception reachable inside the traversal
(`"/".join` over a `None` artist name, line 123) with `Except`.
-/

/-- Constant `MIME_TYPE_FOLDER` (line 30 of `music_indexer.py`). -/
def MIME_TYPE_FOLDER : String := "application/vnd.google-apps.folder"

/-- The literal allow-list of instrument folder names tested at line 117. -/
def recognized_instruments : List String := ["guitar", "ukulele"]

/-- A file object as returned by the Drive listing API with the requested
fields `id, name, mimeType, webViewLink` (constant `INCLUDE_FIELDS`).  The
API always returns `id` and `mimeType`; `name` and `webViewLink` can be
absent from a listing, and the script reads them with `dict.get`, so they are
modelled as `Option`. -/
structure DriveFile where
  id : String
  name : Option String
  mimeType : String
  webViewLink : Option String
deriving DecidableEq

/-- The Drive service, reduced to the listing capability the script uses: for
a folder id, the files whose `parents` contain it. -/
structure DriveClient where
  list : String → List DriveFile

/-- `get_files` (lines 169-184): lists every child of the folder, with no
mime-type restriction in the query. -/
def get_files (service : DriveClient) (artist_folder_id : String) : List DriveFile :=
  service.list artist_folder_id

/-- `get_folders` (lines 192-207): the same listing, restricted by the query
`mimeType = 'application/vnd.google-apps.folder'` to child folders. -/
def get_folders (service : DriveClient) (parent_folder_id : String) : List DriveFile :=
  (service.list parent_folder_id).filter (fun f => f.mimeType = MIME_TYPE_FOLDER)

/-- One configured root from `index_paths` in the configuration: `{id, name}`. -/
structure Root where
  id : String
  name : String
deriving DecidableEq

/-- A row of the `songs` table, i.e. the ORM `Song` object (lines 47-54) as
`load_songs` constructs it: `document_id` is the Drive file id (always
present in a listing), `artist` and `instrument` are plain strings (a `None`
artist name makes the `"/".join` at line 123 raise before any `Song` is
built, and `instrument` is a matched literal), while `name` and `link` are
carried through possibly absent. -/
structure Song where
  document_id : String
  artist : String
  name : Option String
  instrument : String
  location : String
  link : Option String
deriving DecidableEq

/-- The catalog entry built for one song item (lines 120-134). -/
def mkSong (path_name artist_name instrument : String) (song : DriveFile) : Song :=
  { document_id := song.id
    artist := artist_name
    name := song.name
    instrument := instrument
    location := path_name ++ "/" ++ artist_name ++ "/" ++ instrument
    link := song.webViewLink }

/-- The innermost loop of `load_songs` (lines 119-136) over one instrument
folder's song listing.  Python's `"/".join` at line 123 raises `TypeError`
when the artist folder had no name; `path_name` comes from the configuration
and `instrument` is a matched literal, so the artist name is the only value
that can be `None` at the join. -/
def catalog_songs (path_name : String) (artist_name : Option String)
    (instrument : String) : List DriveFile → Except String (List Song)
  | [] => .ok []
  | song :: rest =>
    match artist_name with
    | none => .error "TypeError: sequence item 1: expected str instance, NoneType found"
    | some a => do
      let tail ← catalog_songs path_name (some a) instrument rest
      .ok (mkSong path_name a instrument song :: tail)

/-- One instrument-folder iteration (lines 115-136): the child's name is read
with `.get` and tested, case-sensitively, for membership in the literal list
`["guitar", "ukulele"]`; only on a match are its children fetched and
cataloged.  The child's `mimeType` is never inspected here. -/
def process_instrument (service : DriveClient) (path_name : String)
    (artist_name : Option String) (folder : DriveFile) : Except String (List Song) :=
  match folder.name with
  | some instrument =>
    if instrument ∈ recognized_instruments then
      catalog_songs path_name artist_name instrument (get_files service folder.id)
    else .ok []
  | none => .ok []

/-- The loop over one artist's candidate instrument folders. -/
def process_instruments (service : DriveClient) (path_name : String)
    (artist_name : Option String) : List DriveFile → Except String (List Song)
  | [] => .ok []
  | f :: fs => do
    let here ← process_instrument service path_name artist_name f
    let rest ← process_instruments service path_name artist_name fs
    .ok (here ++ rest)

/-- One artist iteration (lines 112-136).  Note that the candidates are
fetched with `get_files` (line 114), not `get_folders`: every immediate child
of the artist folder is considered, folder or not. -/
def process_artist (service : DriveClient) (path_name : String)
    (artist : DriveFile) : Except String (List Song) :=
  process_instruments service path_name artist.name (get_files service artist.id)

/-- The loop over a root's artist folders. -/
def process_artists (service : DriveClient) (path_name : String) :
    List DriveFile → Except String (List Song)
  | [] => .ok []
  | a :: as => do
    let here ← process_artist service path_name a
    let rest ← process_artists service path_name as
    .ok (here ++ rest)

/-- One root iteration (lines 108-111): the artist candidates are fetched
with `get_folders`, i.e. restricted to actual folders. -/
def process_root (service : DriveClient) (path : Root) : Except String (List Song) :=
  process_artists service path.name (get_folders service path.id)

/-- The full traversal of `load_songs` (lines 105-136), as the ordered list
of catalog entries it visits; an uncaught exception aborts the whole run. -/
def collect_songs (service : DriveClient) : List Root → Except String (List Song)
  | [] => .ok []
  | p :: ps => do
    let here ← process_root service p
    let rest ← collect_songs service ps
    .ok (here ++ rest)

/-- Python-dict insertion for `all_songs[song_doc_id] = s` (line 136):
replace in place when the key is present, append otherwise. -/
def dictInsert (k : String) (v : Song) : List (String × Song) → List (String × Song)
  | [] => [(k, v)]
  | (k', v') :: rest => if k' = k then (k, v) :: rest else (k', v') :: dictInsert k v rest

/-- Lookup in the modelled dictionary. -/
def lookupDict (k : String) (m : List (String × Song)) : Option Song :=
  (m.find? (fun kv => kv.1 = k)).map Prod.snd

/-- `load_songs` (lines 105-138): the traversal's entries inserted one by one
into the `all_songs` dictionary keyed by `document_id`; the dictionary is
returned only when no exception aborted the run. -/
def load_songs (service : DriveClient) (index_paths : List Root) :
    Except String (List (String × Song)) :=
  (collect_songs service index_paths).map
    (fun l => l.foldl (fun m s => dictInsert s.document_id s m) [])

/-! ### The catalog store and its ordered read-back

The `songs` table (SCHEMA, lines 32-43) declares `artist`, `name` and
`instrument` with `COLLATE NOCASE`: SQLite folds the ASCII letters A-Z and
then compares bytewise.  On UTF-8 data a bytewise compare coincides with the
lexicographic compare of the character sequences, so a column value is
modelled by its list of characters folded with `Char.toLower` (which, like
NOCASE and like Python `str.lower` on ASCII, only maps A-Z). -/

/-- ASCII case folding of a whole string, as NOCASE applies before comparing. -/
def nocase (s : String) : String := ⟨s.data.map Char.toLower⟩

/-- The comparison key of one NOCASE column value. -/
def nocaseKey (s : String) : List Char := s.data.map Char.toLower

/-- The comparison key of a nullable NOCASE column; SQL `NULL` sorts first. -/
def optNocaseKey : Option String → WithBot (List Char)
  | none => ⊥
  | some s => ((nocaseKey s : List Char) : WithBot (List Char))

/-- The sort key of `ORDER BY artist, name, instrument` (line 157): the
lexicographic triple of the three folded column values, ties broken in that
field order. -/
def songKey (s : Song) : Lex (List Char × Lex (WithBot (List Char) × List Char)) :=
  toLex (nocaseKey s.artist, toLex (optNocaseKey s.name, nocaseKey s.instrument))

instance songLE_dec : DecidableRel (fun a b : Song => songKey a ≤ songKey b) :=
  fun a b => inferInstanceAs (Decidable (songKey a ≤ songKey b))

/-- The ordered read-back
`dbsession.query(Song).order_by(Song.artist, Song.name, Song.instrument).all()`
(lines 156-158), for a store holding the given rows. -/
def all_ordered (store : List Song) : List Song :=
  store.insertionSort (fun a b => songKey a ≤ songKey b)

/-! ### The destination worksheet -/

/-- A worksheet, as the grid of its cell contents. -/
structure Sheet where
  rows : List (List String)
deriving DecidableEq

/-- The fixed header row written at line 145. -/
def header_row : List String := ["Artist", "Name", "Instrument", "Location", "Document ID"]

/-- `setup_worksheet` (lines 141-150): clear the sheet and append the header
row; freezing the row, enabling the basic filter and the bold format do not
change cell contents. -/
def setup_worksheet (_sheet : Sheet) : Sheet :=
  { rows := [header_row] }

/-- Python interpolation of a value into an f-string: `None` prints as
`"None"` (line 161 builds the formula with f-string interpolation). -/
def pyStr : Option String → String
  | none => "None"
  | some s => s

/-- The cell a possibly-`None` value becomes in an appended row: the JSON
`null` sent by `append_row` renders as an empty cell. -/
def pyCell : Option String → String
  | none => ""
  | some s => s

/-- The `=HYPERLINK(...)` formula built at line 161. -/
def hyperlink_cell (link : Option String) (name : Option String) : String :=
  "=HYPERLINK(\"" ++ pyStr link ++ "\", \"" ++ pyStr name ++ "\")"

/-- gspread `update_cell` (line 164): 1-indexed row and column. -/
def update_cell (sheet : Sheet) (row col : Nat) (value : String) : Sheet :=
  { rows := sheet.rows.set (row - 1) ((sheet.rows.getD (row - 1) []).set (col - 1) value) }

/-- One iteration of the publish loop (lines 156-165): append the entry's
row, then overwrite the Name cell (column 2) of row `row_number` with the
hyperlink formula, and advance `row_number`. -/
def publish_step (acc : Sheet × Nat) (song : Song) : Sheet × Nat :=
  let sheet := acc.1
  let row_number := acc.2
  let name_href := hyperlink_cell song.link song.name
  let row := [song.artist, pyCell song.name, song.instrument, song.location, song.document_id]
  (update_cell { rows := sheet.rows ++ [row] } row_number 2 name_href, row_number + 1)

/-- The publish loop run over an already ordered sequence of entries,
starting from `row_number = 2` (line 155). -/
def publish_rows (sheet : Sheet) (entries : List Song) : Sheet :=
  (entries.foldl publish_step (sheet, 2)).1

/-- `load_spreadsheet` (lines 153-166): publish the store's ordered read-back;
`columns_auto_resize` does not change cell contents. -/
def load_spreadsheet (sheet : Sheet) (store : List Song) : Sheet :=
  publish_rows sheet (all_ordered store)

/-- The row that the publish loop leaves in the sheet for one entry: the five
columns of line 162 with the Name cell replaced by the formula of line 161. -/
def render_row (s : Song) : List String :=
  [s.artist, hyperlink_cell s.link s.name, s.instrument, s.location, s.document_id]

/-! ### The top-level run -/

/-- The state of the world that `main` mutates: whether the SQLite store file
exists on disk, and the destination worksheet's grid. -/
structure World where
  store_file_exists : Bool
  sheet : Sheet
deriving DecidableEq

/-- `connect_to_database` (lines 210-216): deletes an existing store file
(`os.unlink`) and configures a session; the engine is lazy, so no new file is
created yet. -/
def connect_to_database (w : World) : World :=
  { w with store_file_exists := false }

/-- The worksheet-selection loop of `main` (lines 244-247): scan every sheet
title, keeping the last one equal to the configured name. -/
def find_worksheet (titles : List String) (sheet_name : String) : Option String :=
  titles.foldl (fun acc t => if t = sheet_name then some t else acc) none

/-- `main` (lines 219-256), from the collaborator connections onward:
connect to the database (deleting any existing store file, line 241), locate
the destination worksheet, `sys.exit` when it is absent (line 250), otherwise
clear and set up the worksheet (line 252), re-create the database file with
the schema (line 253, `initialize_database`), index (line 255) and publish
(line 256).  The result pairs `some message` — the `sys.exit` argument or a
propagated exception — with the final world. -/
def mainRun (sheet_name : String) (titles : List String) (service : DriveClient)
    (index_paths : List Root) (w : World) : Option String × World :=
  let w1 := connect_to_database w
  match find_worksheet titles sheet_name with
  | none => (some ("did not find sheet in workbook: " ++ sheet_name), w1)
  | some _ =>
    let w2 : World := { w1 with sheet := setup_worksheet w1.sheet }
    let w3 : World := { w2 with store_file_exists := true }
    match load_songs service index_paths with
    | .error e => (some e, w3)
    | .ok m =>
      let store := m.map Prod.snd
      (none, { w3 with sheet := load_spreadsheet w3.sheet store })

/-! ### The listing helpers with their surrounding run state

`FOLDER_CACHE` is declared at line 29; the helpers `get_files` and
`get_folders` send a listing request on every call and neither read nor
write the cache.  The state that surrounds them — the cache dictionary and
a count of listing requests actually sent to the Drive service — is made
explicit here. -/

/-- The run-global state around the listing helpers. -/
structure RunState where
  folder_cache : List (String × List DriveFile)
  fetch_count : Nat
deriving DecidableEq

/-- `get_files` with the surrounding state explicit: the body unconditionally
executes `service.files().list(...).execute()` and never touches
`FOLDER_CACHE`. -/
def get_files_counted (service : DriveClient) (artist_folder_id : String)
    (st : RunState) : List DriveFile × RunState :=
  (service.list artist_folder_id,
   { folder_cache := st.folder_cache, fetch_count := st.fetch_count + 1 })

/-- `get_folders` with the surrounding state explicit, likewise. -/
def get_folders_counted (service : DriveClient) (parent_folder_id : String)
    (st : RunState) : List DriveFile × RunState :=
  ((service.list parent_folder_id).filter (fun f => f.mimeType = MIME_TYPE_FOLDER),
   { folder_cache := st.folder_cache, fetch_count := st.fetch_count + 1 })

/-- `n` successive children lookups of the same folder id within one run. -/
def repeat_lookups (service : DriveClient) (folder_id : String) :
    Nat → RunState → RunState
  | 0, st => st
  | n + 1, st => repeat_lookups service folder_id n (get_files_counted service folder_id st).2

/-! ### Traversal lemmas -/

/-- With the artist name present, the innermost loop never raises and maps
`mkSong` over the song listing. -/
theorem catalog_songs_ok (path_name a instrument : String) (songs : List DriveFile) :
    catalog_songs path_name (some a) instrument songs =
      .ok (songs.map (mkSong path_name a instrument)) := by
  induction songs with
  | nil => rfl
  | cons s rest ih => simp [catalog_songs, ih, Bind.bind, Except.bind]

/-- Provenance through the innermost loop. -/
theorem mem_catalog_songs {path_name instrument : String} {artist_name : Option String}
    {songs : List DriveFile} {l : List Song} {s : Song}
    (h : catalog_songs path_name artist_name instrument songs = .ok l) (hs : s ∈ l) :
    ∃ a, artist_name = some a ∧ ∃ song ∈ songs, s = mkSong path_name a instrument song := by
  cases songs with
  | nil =>
    cases artist_name <;> (simp only [catalog_songs, Except.ok.injEq] at h; subst h; simp at hs)
  | cons song rest =>
    cases artist_name with
    | none => simp [catalog_songs] at h
    | some a =>
      rw [catalog_songs_ok] at h
      cases h
      obtain ⟨song', hmem, rfl⟩ := List.mem_map.mp hs
      exact ⟨a, rfl, song', hmem, rfl⟩

/-- Provenance through one instrument-folder iteration. -/
theorem mem_process_instrument {service : DriveClient} {path_name : String}
    {artist_name : Option String} {folder : DriveFile} {l : List Song} {s : Song}
    (h : process_instrument service path_name artist_name folder = .ok l) (hs : s ∈ l) :
    ∃ instrument, folder.name = some instrument ∧ instrument ∈ recognized_instruments ∧
      ∃ a, artist_name = some a ∧
        ∃ song ∈ get_files service folder.id, s = mkSong path_name a instrument song := by
  cases hn : folder.name with
  | none => simp only [process_instrument, hn, Except.ok.injEq] at h; subst h; simp at hs
  | some instrument =>
    simp only [process_instrument, hn] at h
    by_cases hmem : instrument ∈ recognized_instruments
    · rw [if_pos hmem] at h
      obtain ⟨a, ha, song, hsong, rfl⟩ := mem_catalog_songs h hs
      exact ⟨instrument, rfl, hmem, a, ha, song, hsong, rfl⟩
    · rw [if_neg hmem] at h; cases h; simp at hs

/-- Provenance through the loop over instrument candidates. -/
theorem mem_process_instruments {service : DriveClient} {path_name : String}
    {artist_name : Option String} {fs : List DriveFile} {l : List Song} {s : Song}
    (h : process_instruments service path_name artist_name fs = .ok l) (hs : s ∈ l) :
    ∃ f ∈ fs, ∃ l', process_instrument service path_name artist_name f = .ok l' ∧ s ∈ l' := by
  induction fs generalizing l with
  | nil => simp only [process_instruments, Except.ok.injEq] at h; subst h; simp at hs
  | cons f fs ih =>
    simp only [process_instruments, Bind.bind, Except.bind] at h
    cases h1 : process_instrument service path_name artist_name f with
    | error e => rw [h1] at h; cases h
    | ok here =>
      rw [h1] at h
      cases h2 : process_instruments service path_name artist_name fs with
      | error e => rw [h2] at h; cases h
      | ok rest =>
        rw [h2] at h
        cases h
        rcases List.mem_append.mp hs with hsl | hsr
        · exact ⟨f, List.mem_cons_self f fs, here, h1, hsl⟩
        · obtain ⟨f', hf', l', hl', hs'⟩ := ih h2 hsr
          exact ⟨f', List.mem_cons_of_mem f hf', l', hl', hs'⟩

/-- Provenance through the loop over a root's artist folders. -/
theorem mem_process_artists {service : DriveClient} {path_name : String}
    {artists : List DriveFile} {l : List Song} {s : Song}
    (h : process_artists service path_name artists = .ok l) (hs : s ∈ l) :
    ∃ artist ∈ artists, ∃ l', process_artist service path_name artist = .ok l' ∧ s ∈ l' := by
  induction artists generalizing l with
  | nil => simp only [process_artists, Except.ok.injEq] at h; subst h; simp at hs
  | cons a as ih =>
    simp only [process_artists, Bind.bind, Except.bind] at h
    cases h1 : process_artist service path_name a with
    | error e => rw [h1] at h; cases h
    | ok here =>
      rw [h1] at h
      cases h2 : process_artists service path_name as with
      | error e => rw [h2] at h; cases h
      | ok rest =>
        rw [h2] at h
        cases h
        rcases List.mem_append.mp hs with hsl | hsr
        · exact ⟨a, List.mem_cons_self a as, here, h1, hsl⟩
        · obtain ⟨a', ha', l', hl', hs'⟩ := ih h2 hsr
          exact ⟨a', List.mem_cons_of_mem a ha', l', hl', hs'⟩

/-- Provenance through the loop over the configured roots. -/
theorem mem_collect_songs {service : DriveClient} {index_paths : List Root}
    {l : List Song} {s : Song}
    (h : collect_songs service index_paths = .ok l) (hs : s ∈ l) :
    ∃ path ∈ index_paths, ∃ l', process_root service path = .ok l' ∧ s ∈ l' := by
  induction index_paths generalizing l with
  | nil => simp only [collect_songs, Except.ok.injEq] at h; subst h; simp at hs
  | cons p ps ih =>
    simp only [collect_songs, Bind.bind, Except.bind] at h
    cases h1 : process_root service p with
    | error e => rw [h1] at h; cases h
    | ok here =>
      rw [h1] at h
      cases h2 : collect_songs service ps with
      | error e => rw [h2] at h; cases h
      | ok rest =>
        rw [h2] at h
        cases h
        rcases List.mem_append.mp hs with hsl | hsr
        · exact ⟨p, List.mem_cons_self p ps, here, h1, hsl⟩
        · obtain ⟨p', hp', l', hl', hs'⟩ := ih h2 hsr
          exact ⟨p', List.mem_cons_of_mem p hp', l', hl', hs'⟩

/-- Every entry of a successful traversal was built by `mkSong` from a song
item found under a recognized instrument name, below an artist of one of the
configured roots. -/
theorem collect_songs_provenance {service : DriveClient} {index_paths : List Root}
    {l : List Song} {s : Song}
    (h : collect_songs service index_paths = .ok l) (hs : s ∈ l) :
    ∃ path ∈ index_paths, ∃ instrument ∈ recognized_instruments, ∃ a song,
      s = mkSong path.name a instrument song := by
  obtain ⟨path, hp, l1, h1, hs1⟩ := mem_collect_songs h hs
  obtain ⟨artist, _, l2, h2, hs2⟩ := mem_process_artists h1 hs1
  obtain ⟨folder, _, l3, h3, hs3⟩ := mem_process_instruments h2 hs2
  obtain ⟨instrument, _, hrec, a, _, song, _, rfl⟩ := mem_process_instrument h3 hs3
  exact ⟨path, hp, instrument, hrec, a, song, rfl⟩

/-- A successful `load_songs` is the fold of a successful traversal. -/
theorem load_songs_ok {service : DriveClient} {index_paths : List Root}
    {m : List (String × Song)} (h : load_songs service index_paths = .ok m) :
    ∃ l, collect_songs service index_paths = .ok l ∧
      m = l.foldl (fun m s => dictInsert s.document_id s m) [] := by
  unfold load_songs at h
  cases hc : collect_songs service index_paths with
  | error e => rw [hc] at h; cases h
  | ok l => rw [hc] at h; cases h; exact ⟨l, rfl, rfl⟩

/-- Membership after a dictionary insertion. -/
theorem mem_dictInsert {k : String} {v : Song} {m : List (String × Song)}
    {kv : String × Song} (h : kv ∈ dictInsert k v m) : kv = (k, v) ∨ kv ∈ m := by
  induction m with
  | nil => simpa [dictInsert] using h
  | cons p rest ih =>
    obtain ⟨k', v'⟩ := p
    by_cases e : k' = k
    · rw [dictInsert, if_pos e] at h
      rcases List.mem_cons.mp h with h | h
      · exact Or.inl h
      · exact Or.inr (List.mem_cons_of_mem _ h)
    · rw [dictInsert, if_neg e] at h
      rcases List.mem_cons.mp h with h | h
      · exact Or.inr (h ▸ List.mem_cons_self _ _)
      · rcases ih h with h | h
        · exact Or.inl h
        · exact Or.inr (List.mem_cons_of_mem _ h)

/-- Membership in the folded dictionary comes from the inserted entries or
the initial dictionary. -/
theorem mem_foldl_dictInsert {l : List Song} {m : List (String × Song)}
    {kv : String × Song}
    (h : kv ∈ l.foldl (fun m s => dictInsert s.document_id s m) m) :
    kv ∈ m ∨ ∃ s ∈ l, kv = (s.document_id, s) := by
  induction l generalizing m with
  | nil => exact Or.inl h
  | cons s rest ih =>
    rw [List.foldl_cons] at h
    rcases ih h with h | h
    · rcases mem_dictInsert h with h | h
      · exact Or.inr ⟨s, List.mem_cons_self s rest, h⟩
      · exact Or.inl h
    · obtain ⟨s', hs', rfl⟩ := h
      exact Or.inr ⟨s', List.mem_cons_of_mem s hs', rfl⟩

/-! ### Concrete inputs used by counterexamples and witnesses -/

/-- A Drive service with no content. -/
def empty_client : DriveClient := ⟨fun _ => []⟩

/-- Root `R` holds artist folder `Bo`; `Bo` holds a folder named `Guitar`
(upper-case G) which holds one song. -/
def guitar_case_client : DriveClient :=
  ⟨fun folder_id =>
    if folder_id = "R" then [⟨"A1", some "Bo", MIME_TYPE_FOLDER, none⟩]
    else if folder_id = "A1" then [⟨"I1", some "Guitar", MIME_TYPE_FOLDER, none⟩]
    else if folder_id = "I1" then [⟨"S1", some "Song1", "audio/mpeg", some "http://x"⟩]
    else []⟩

/-- Root `R` holds artist folder `Bo`; `Bo` holds a PLAIN FILE (`mimeType`
`application/pdf`) named `guitar`, which itself lists one child song. -/
def pdf_guitar_client : DriveClient :=
  ⟨fun folder_id =>
    if folder_id = "R" then [⟨"A1", some "Bo", MIME_TYPE_FOLDER, none⟩]
    else if folder_id = "A1" then [⟨"F1", some "guitar", "application/pdf", none⟩]
    else if folder_id = "F1" then [⟨"S1", some "Song1", "audio/mpeg", some "http://x"⟩]
    else []⟩

/-! ### C1 — recognition of instrument folders -/

/-- C1, counterexample: the folder named `Guitar` has a lower-cased name in
the recognized set and holds a song, yet the run emits no catalog entry for
it, because line 117 compares the name, un-lowered, against the literal list:
matching is case-sensitive, not case-insensitive as claimed. -/
theorem claim_C1_counterexample :
    nocase "Guitar" ∈ recognized_instruments ∧
    get_files guitar_case_client "I1" ≠ [] ∧
    load_songs guitar_case_client [⟨"R", "Library"⟩] = .ok [] :=
  ⟨by decide, by decide, rfl⟩

/-- C1, amended: matching is case-sensitive — a child of an artist folder is
descended into and its children emitted as song entries if and only if its
name is exactly `guitar` or exactly `ukulele`.  Conjunct 1 (only if): a child
whose name is absent or not equal to one of those two strings contributes no
catalog entry and causes no failure.  Conjunct 2 (if): a child whose name is
exactly a recognized one has its children fetched and cataloged, one entry
per listed song.  Conjunct 3: consequently every entry of a successful run
carries one of the two literal instrument names. -/
theorem claim_C1_amended :
    (∀ (service : DriveClient) (path_name : String) (artist_name : Option String)
        (folder : DriveFile),
        (∀ instrument, folder.name = some instrument →
          instrument ∉ recognized_instruments) →
        process_instrument service path_name artist_name folder = .ok []) ∧
    (∀ (service : DriveClient) (path_name a instrument : String) (folder : DriveFile),
        folder.name = some instrument → instrument ∈ recognized_instruments →
        process_instrument service path_name (some a) folder =
          .ok ((get_files service folder.id).map (mkSong path_name a instrument))) ∧
    ∀ (service : DriveClient) (index_paths : List Root) (m : List (String × Song))
      (k : String) (s : Song),
      load_songs service index_paths = .ok m → (k, s) ∈ m →
      s.instrument = "guitar" ∨ s.instrument = "ukulele" := by
  refine ⟨?_, ?_, ?_⟩
  · intro service path_name artist_name folder hno
    cases hn : folder.name with
    | none => simp [process_instrument, hn]
    | some instrument =>
      simp only [process_instrument, hn]
      rw [if_neg (hno instrument hn)]
  · intro service path_name a instrument folder hname hrec
    simp only [process_instrument, hname]
    rw [if_pos hrec, catalog_songs_ok]
  · intro service index_paths m k s h hmem
    obtain ⟨l, hc, rfl⟩ := load_songs_ok h
    rcases mem_foldl_dictInsert hmem with h' | ⟨s', hs', heq⟩
    · simp at h'
    · cases heq
      obtain ⟨path, _, instrument, hrec, a, song, rfl⟩ := collect_songs_provenance hc hs'
      simpa [mkSong, recognized_instruments] using hrec

/-- Root `R` holds artist folder `Bo`; `Bo` holds a folder named exactly
`guitar` (lower case) which holds one song. -/
def guitar_exact_client : DriveClient :=
  ⟨fun folder_id =>
    if folder_id = "R" then [⟨"A1", some "Bo", MIME_TYPE_FOLDER, none⟩]
    else if folder_id = "A1" then [⟨"I1", some "guitar", MIME_TYPE_FOLDER, none⟩]
    else if folder_id = "I1" then [⟨"S1", some "Song1", "audio/mpeg", some "http://x"⟩]
    else []⟩

/-- C1 witness: the amended theorem applied at concrete inputs — the folder
named `Guitar` (not an exact match) contributes nothing, the folder named
exactly `guitar` is descended into and its one song becomes an entry, and in
the run over `pdf_guitar_client` the sole entry carries a literal instrument
name. -/
theorem claim_C1_amended_witness :
    process_instrument guitar_case_client "Library" (some "Bo")
        ⟨"I1", some "Guitar", MIME_TYPE_FOLDER, none⟩ = .ok [] ∧
    process_instrument guitar_exact_client "Library" (some "Bo")
        ⟨"I1", some "guitar", MIME_TYPE_FOLDER, none⟩ =
      .ok [{ document_id := "S1", artist := "Bo", name := some "Song1",
             instrument := "guitar", location := "Library/Bo/guitar",
             link := some "http://x" }] ∧
    ((mkSong "Library" "Bo" "guitar" ⟨"S1", some "Song1", "audio/mpeg", some "http://x"⟩).instrument
        = "guitar" ∨
     (mkSong "Library" "Bo" "guitar" ⟨"S1", some "Song1", "audio/mpeg", some "http://x"⟩).instrument
        = "ukulele") := by
  refine ⟨?_, ?_, ?_⟩
  · exact claim_C1_amended.1 guitar_case_client "Library" (some "Bo")
      ⟨"I1", some "Guitar", MIME_TYPE_FOLDER, none⟩ (by decide)
  · exact (claim_C1_amended.2.1 guitar_exact_client "Library" "Bo" "guitar"
      ⟨"I1", some "guitar", MIME_TYPE_FOLDER, none⟩ rfl (by decide)).trans rfl
  · exact claim_C1_amended.2.2 pdf_guitar_client [⟨"R", "Library"⟩]
      [("S1", mkSong "Library" "Bo" "guitar" ⟨"S1", some "Song1", "audio/mpeg", some "http://x"⟩)]
      "S1" (mkSong "Library" "Bo" "guitar" ⟨"S1", some "Song1", "audio/mpeg", some "http://x"⟩)
      rfl (by simp)

/-! ### C7 — which children are instrument candidates -/

/-- C7, counterexample: the artist folder's only child is a plain file
(`application/pdf`) named `guitar`, and the indexer nevertheless descends
into it — its children listing is processed and yields a catalog entry —
because line 114 fetches the candidates with `get_files`, which does not
restrict the query to folders. -/
theorem claim_C7_counterexample :
    get_files pdf_guitar_client "A1" = [⟨"F1", some "guitar", "application/pdf", none⟩] ∧
    "application/pdf" ≠ MIME_TYPE_FOLDER ∧
    load_songs pdf_guitar_client [⟨"R", "Library"⟩] =
      .ok [("S1", { document_id := "S1", artist := "Bo", name := some "Song1",
                    instrument := "guitar", location := "Library/Bo/guitar",
                    link := some "http://x" })] :=
  ⟨rfl, by decide, rfl⟩

/-- C7, amended: the candidates considered under an artist folder are ALL of
its immediate children, with no filtering on type — the candidate's
`mimeType` is never inspected (first conjunct), and every child whose name
passes the instrument test contributes its song entries to the artist's
result, folder or not (second conjunct). -/
theorem claim_C7_amended :
    (∀ (service : DriveClient) (path_name : String) (artist_name : Option String)
        (folder : DriveFile) (m : String),
        process_instrument service path_name artist_name
            ⟨folder.id, folder.name, m, folder.webViewLink⟩ =
          process_instrument service path_name artist_name folder) ∧
    ∀ (service : DriveClient) (path_name : String) (artist : DriveFile) (l : List Song),
      process_artist service path_name artist = .ok l →
      ∀ f ∈ get_files service artist.id, ∀ l',
        process_instrument service path_name artist.name f = .ok l' →
        ∀ s ∈ l', s ∈ l := by
  constructor
  · intro service path_name artist_name folder m
    rfl
  · intro service path_name artist l h
    unfold process_artist at h
    generalize hfs : get_files service artist.id = fs at h
    clear hfs
    induction fs generalizing l with
    | nil => intro f hf; simp at hf
    | cons g gs ih =>
      intro f hf l' hl' s hsl'
      simp only [process_instruments, Bind.bind, Except.bind] at h
      cases h1 : process_instrument service path_name artist.name g with
      | error e => rw [h1] at h; cases h
      | ok here =>
        rw [h1] at h
        cases h2 : process_instruments service path_name artist.name gs with
        | error e => rw [h2] at h; cases h
        | ok rest =>
          rw [h2] at h
          cases h
          rcases List.mem_cons.mp hf with rfl | hf'
          · rw [h1] at hl'
            cases hl'
            exact List.mem_append.mpr (Or.inl hsl')
          · exact List.mem_append.mpr (Or.inr (ih rest h2 f hf' l' hl' s hsl'))

/-- C7 witness: the amended theorem applied at the `pdf_guitar_client` run —
changing the pdf child's `mimeType` is invisible to the instrument step, and
the pdf child's song entry reaches the artist's result. -/
theorem claim_C7_amended_witness :
    process_instrument pdf_guitar_client "Library" (some "Bo")
        ⟨"F1", some "guitar", MIME_TYPE_FOLDER, none⟩ =
      process_instrument pdf_guitar_client "Library" (some "Bo")
        ⟨"F1", some "guitar", "application/pdf", none⟩ ∧
    mkSong "Library" "Bo" "guitar" ⟨"S1", some "Song1", "audio/mpeg", some "http://x"⟩ ∈
      [mkSong "Library" "Bo" "guitar" ⟨"S1", some "Song1", "audio/mpeg", some "http://x"⟩] := by
  constructor
  · exact claim_C7_amended.1 pdf_guitar_client "Library" (some "Bo")
      ⟨"F1", some "guitar", "application/pdf", none⟩ MIME_TYPE_FOLDER
  · exact claim_C7_amended.2 pdf_guitar_client "Library"
      ⟨"A1", some "Bo", MIME_TYPE_FOLDER, none⟩
      [mkSong "Library" "Bo" "guitar" ⟨"S1", some "Song1", "audio/mpeg", some "http://x"⟩]
      rfl ⟨"F1", some "guitar", "application/pdf", none⟩ (by decide)
      [mkSong "Library" "Bo" "guitar" ⟨"S1", some "Song1", "audio/mpeg", some "http://x"⟩]
      rfl _ (by simp)

/-! ### C8 — the location invariant -/

/-- C8: every catalog entry of a successful run has
`location = <root name>/<artist>/<instrument>`, built from its own `artist`
and `instrument` fields and the name of one of the configured roots
(line 123 joins exactly the three values that also populate the fields). -/
theorem claim_C8 :
    ∀ (service : DriveClient) (index_paths : List Root) (m : List (String × Song))
      (k : String) (s : Song),
      load_songs service index_paths = .ok m → (k, s) ∈ m →
      ∃ path ∈ index_paths,
        s.location = path.name ++ "/" ++ s.artist ++ "/" ++ s.instrument := by
  intro service index_paths m k s h hmem
  obtain ⟨l, hc, rfl⟩ := load_songs_ok h
  rcases mem_foldl_dictInsert hmem with h' | ⟨s', hs', heq⟩
  · simp at h'
  · cases heq
    obtain ⟨path, hp, instrument, _, a, song, rfl⟩ := collect_songs_provenance hc hs'
    exact ⟨path, hp, rfl⟩

/-- C8 witness: the theorem applied to the `pdf_guitar_client` run; its sole
entry's location is `Library/Bo/guitar`. -/
theorem claim_C8_witness :
    ∃ path ∈ [(⟨"R", "Library"⟩ : Root)],
      (mkSong "Library" "Bo" "guitar"
          ⟨"S1", some "Song1", "audio/mpeg", some "http://x"⟩).location =
        path.name ++ "/" ++
          (mkSong "Library" "Bo" "guitar"
            ⟨"S1", some "Song1", "audio/mpeg", some "http://x"⟩).artist ++ "/" ++
          (mkSong "Library" "Bo" "guitar"
            ⟨"S1", some "Song1", "audio/mpeg", some "http://x"⟩).instrument :=
  claim_C8 pdf_guitar_client [⟨"R", "Library"⟩]
    [("S1", mkSong "Library" "Bo" "guitar" ⟨"S1", some "Song1", "audio/mpeg", some "http://x"⟩)]
    "S1" (mkSong "Library" "Bo" "guitar" ⟨"S1", some "Song1", "audio/mpeg", some "http://x"⟩)
    rfl (by simp)

/-! ### C9 — missing song name or link -/

/-- C9: a song item under a recognized instrument folder is always cataloged,
also when its `name` or its `webViewLink` is absent from the listing: the
step succeeds (no exception), emits one entry per listed song, and the
possibly-missing values are carried into the entry's `name` and `link`
fields unchanged (absent stays absent), with the id as `document_id`. -/
theorem claim_C9 :
    ∀ (service : DriveClient) (path_name a instrument : String) (folder : DriveFile),
      folder.name = some instrument → instrument ∈ recognized_instruments →
      process_instrument service path_name (some a) folder =
        .ok ((get_files service folder.id).map (mkSong path_name a instrument)) ∧
      ∀ song ∈ get_files service folder.id,
        (mkSong path_name a instrument song).name = song.name ∧
        (mkSong path_name a instrument song).link = song.webViewLink ∧
        (mkSong path_name a instrument song).document_id = song.id := by
  intro service path_name a instrument folder hname hrec
  constructor
  · simp only [process_instrument, hname]
    rw [if_pos hrec, catalog_songs_ok]
  · intro song _
    exact ⟨rfl, rfl, rfl⟩

/-- A root whose `guitar` folder holds one song with no name and no link. -/
def gapped_client : DriveClient :=
  ⟨fun folder_id =>
    if folder_id = "R" then [⟨"A1", some "Bo", MIME_TYPE_FOLDER, none⟩]
    else if folder_id = "A1" then [⟨"I1", some "guitar", MIME_TYPE_FOLDER, none⟩]
    else if folder_id = "I1" then [⟨"S1", none, "audio/mpeg", none⟩]
    else []⟩

/-- C9 witness: the theorem applied at a folder holding one song with no
name and no link; the step returns one entry whose gaps match. -/
theorem claim_C9_witness :
    process_instrument gapped_client "Library" (some "Bo")
        ⟨"I1", some "guitar", MIME_TYPE_FOLDER, none⟩ =
      .ok [{ document_id := "S1", artist := "Bo", name := none, instrument := "guitar",
             location := "Library/Bo/guitar", link := none }] := by
  have h := (claim_C9 gapped_client "Library" "Bo" "guitar"
    ⟨"I1", some "guitar", MIME_TYPE_FOLDER, none⟩ rfl (by decide)).1
  exact h.trans rfl

/-! ### C10 — the run is a function of the listings -/

/-- C10: the indexing pass is a deterministic function of the listing
capability and the ordered roots — two clients whose listings agree pointwise
produce identical results, identical keys and identical entry fields. -/
theorem claim_C10 :
    ∀ (c1 c2 : DriveClient) (index_paths : List Root),
      (∀ folder_id, c1.list folder_id = c2.list folder_id) →
      load_songs c1 index_paths = load_songs c2 index_paths := by
  intro c1 c2 index_paths h
  obtain ⟨f⟩ := c1
  obtain ⟨g⟩ := c2
  have hfg : f = g := funext h
  subst hfg
  rfl

/-- The same listings as `gapped_client`, defined a second time. -/
def gapped_client_again : DriveClient :=
  ⟨fun folder_id =>
    if folder_id = "R" then [⟨"A1", some "Bo", MIME_TYPE_FOLDER, none⟩]
    else if folder_id = "A1" then [⟨"I1", some "guitar", MIME_TYPE_FOLDER, none⟩]
    else if folder_id = "I1" then [⟨"S1", none, "audio/mpeg", none⟩]
    else []⟩

/-- C10 witness: the theorem applied to two syntactically distinct clients
with pointwise equal listings. -/
theorem claim_C10_witness :
    load_songs gapped_client [⟨"R", "Library"⟩] =
      load_songs gapped_client_again [⟨"R", "Library"⟩] :=
  claim_C10 gapped_client gapped_client_again [⟨"R", "Library"⟩] (fun _ => rfl)

/-! ### C2 — one entry per document id, last write wins -/

/-- Lookup after one dictionary insertion. -/
theorem lookupDict_dictInsert (k k' : String) (v : Song) (m : List (String × Song)) :
    lookupDict k (dictInsert k' v m) = if k' = k then some v else lookupDict k m := by
  induction m with
  | nil => by_cases e : k' = k <;> simp [dictInsert, lookupDict, List.find?, e]
  | cons p rest ih =>
    obtain ⟨k0, v0⟩ := p
    by_cases e0 : k0 = k'
    · subst e0
      rw [dictInsert, if_pos rfl]
      by_cases e : k0 = k
      · rw [if_pos e]
        simp [lookupDict, List.find?_cons_of_pos, e]
      · rw [if_neg e]
        simp only [lookupDict]
        rw [List.find?_cons_of_neg _ (by simpa using e), List.find?_cons_of_neg _ (by simpa using e)]
    · rw [dictInsert, if_neg e0]
      by_cases ek : k0 = k
      · have hne : k' ≠ k := fun h => e0 (ek.trans h.symm)
        rw [if_neg hne]
        simp [lookupDict, List.find?_cons_of_pos, ek]
      · simp only [lookupDict] at ih ⊢
        rw [List.find?_cons_of_neg _ (by simpa using ek),
          List.find?_cons_of_neg _ (by simpa using ek)]
        exact ih

/-- The keys of the dictionary after an insertion. -/
theorem map_fst_dictInsert (k : String) (v : Song) (m : List (String × Song)) :
    (dictInsert k v m).map Prod.fst =
      if k ∈ m.map Prod.fst then m.map Prod.fst else m.map Prod.fst ++ [k] := by
  induction m with
  | nil => simp [dictInsert]
  | cons p rest ih =>
    obtain ⟨k0, v0⟩ := p
    by_cases e0 : k0 = k
    · subst e0
      simp [dictInsert]
    · rw [dictInsert, if_neg e0]
      by_cases hk : k ∈ rest.map Prod.fst
      · simp [hk, ih, Ne.symm e0]
      · simp [hk, ih, Ne.symm e0]

/-- Insertion preserves distinctness of the keys. -/
theorem nodup_dictInsert (k : String) (v : Song) (m : List (String × Song))
    (h : (m.map Prod.fst).Nodup) : ((dictInsert k v m).map Prod.fst).Nodup := by
  rw [map_fst_dictInsert]
  by_cases hk : k ∈ m.map Prod.fst
  · simpa [hk]
  · simpa [hk, List.nodup_append] using h

/-- The folded dictionary has pairwise distinct keys. -/
theorem nodup_foldl_dictInsert (l : List Song) (m : List (String × Song))
    (h : (m.map Prod.fst).Nodup) :
    ((l.foldl (fun m s => dictInsert s.document_id s m) m).map Prod.fst).Nodup := by
  induction l generalizing m with
  | nil => exact h
  | cons s rest ih => exact ih _ (nodup_dictInsert _ _ _ h)

/-- An auxiliary form of `getLast?` on a cons cell. -/
theorem getLast?_cons_or (a : α) (t : List α) :
    (a :: t).getLast? = t.getLast?.or (some a) := by
  induction t generalizing a with
  | nil => rfl
  | cons b t' ih =>
    rw [List.getLast?_cons_cons, ih b]
    cases t'.getLast? <;> simp

/-- Folding the traversal list into the dictionary implements
last-write-wins per key. -/
theorem lookupDict_foldl (l : List Song) (m : List (String × Song)) (k : String) :
    lookupDict k (l.foldl (fun m s => dictInsert s.document_id s m) m) =
      ((l.filter (fun s => s.document_id = k)).getLast?).or (lookupDict k m) := by
  induction l generalizing m with
  | nil => simp
  | cons s rest ih =>
    rw [List.foldl_cons, ih]
    by_cases e : s.document_id = k
    · rw [List.filter_cons_of_pos (by simpa using e), getLast?_cons_or,
        lookupDict_dictInsert, if_pos e, Option.or_assoc]
      simp
    · rw [List.filter_cons_of_neg (by simpa using e), lookupDict_dictInsert, if_neg e]

/-- C2: a successful run's mapping holds exactly one entry per `document_id`
(first conjunct), and the entry stored under a key is the LAST one the
traversal produced for that key — later writes silently replace earlier
ones, with no merging of fields (second conjunct). -/
theorem claim_C2 :
    ∀ (service : DriveClient) (index_paths : List Root) (m : List (String × Song)),
      load_songs service index_paths = .ok m →
      (m.map Prod.fst).Nodup ∧
      ∀ l, collect_songs service index_paths = .ok l →
        ∀ k, lookupDict k m = (l.filter (fun s => s.document_id = k)).getLast? := by
  intro service index_paths m h
  obtain ⟨l0, hc, rfl⟩ := load_songs_ok h
  refine ⟨nodup_foldl_dictInsert l0 [] (by simp), ?_⟩
  intro l hl k
  rw [hc] at hl
  cases hl
  rw [lookupDict_foldl]
  simp [lookupDict]

/-- Two roots that both eventually yield a song with id `DUP`, under
different artists and with different fields. -/
def dup_client : DriveClient :=
  ⟨fun folder_id =>
    if folder_id = "R1" then [⟨"A1", some "ArtistOne", MIME_TYPE_FOLDER, none⟩]
    else if folder_id = "A1" then [⟨"G1", some "guitar", MIME_TYPE_FOLDER, none⟩]
    else if folder_id = "G1" then [⟨"DUP", some "First", "audio/mpeg", some "http://1"⟩]
    else if folder_id = "R2" then [⟨"A2", some "ArtistTwo", MIME_TYPE_FOLDER, none⟩]
    else if folder_id = "A2" then [⟨"G2", some "ukulele", MIME_TYPE_FOLDER, none⟩]
    else if folder_id = "G2" then [⟨"DUP", some "Second", "audio/mpeg", some "http://2"⟩]
    else []⟩

/-- The entry the second root produces for `DUP`. -/
def dup_second : Song :=
  { document_id := "DUP", artist := "ArtistTwo", name := some "Second",
    instrument := "ukulele", location := "Lib2/ArtistTwo/ukulele", link := some "http://2" }

/-- The entry the first root produces for `DUP`. -/
def dup_first : Song :=
  { document_id := "DUP", artist := "ArtistOne", name := some "First",
    instrument := "guitar", location := "Lib1/ArtistOne/guitar", link := some "http://1" }

/-- C2 witness: the theorem applied to a run in which two roots yield songs
sharing id `DUP`; the final mapping has distinct keys and holds the
second-processed entry's fields for `DUP`. -/
theorem claim_C2_witness :
    (([("DUP", dup_second)] : List (String × Song)).map Prod.fst).Nodup ∧
    lookupDict "DUP" [("DUP", dup_second)] = some dup_second := by
  obtain ⟨h1, h2⟩ := claim_C2 dup_client [⟨"R1", "Lib1"⟩, ⟨"R2", "Lib2"⟩]
    [("DUP", dup_second)] rfl
  refine ⟨h1, ?_⟩
  rw [h2 [dup_first, dup_second] rfl "DUP"]
  rfl

/-! ### C5 — the ordered read-back -/

/-- The ordering relation the read-back satisfies: lexicographic on the
case-folded `(artist, name, instrument)` triple. -/
instance songKey_le_total : IsTotal Song (fun a b => songKey a ≤ songKey b) :=
  ⟨fun _ _ => le_total _ _⟩

instance songKey_le_trans : IsTrans Song (fun a b => songKey a ≤ songKey b) :=
  ⟨fun _ _ _ => le_trans⟩

/-- A store row with artist `zara`. -/
def zara_song : Song :=
  { document_id := "Z1", artist := "zara", name := some "SongZ", instrument := "guitar",
    location := "L/zara/guitar", link := some "http://z" }

/-- A store row with artist `Anna`. -/
def anna_song : Song :=
  { document_id := "A1", artist := "Anna", name := some "SongA", instrument := "ukulele",
    location := "L/Anna/ukulele", link := some "http://a" }

/-- C5: the ordered read-back returns every live row (a permutation of the
store), sorted by the case-folded `(artist, name, instrument)` key with ties
broken in that field order (the lexicographic triple `songKey`); in
particular `Anna` precedes `zara` although `z` precedes `a` in a
case-sensitive compare. -/
theorem claim_C5 :
    ∀ store : List Song,
      (all_ordered store).Perm store ∧
      List.Sorted (fun a b => songKey a ≤ songKey b) (all_ordered store) ∧
      all_ordered [zara_song, anna_song] = [anna_song, zara_song] := by
  intro store
  exact ⟨List.perm_insertionSort _ store, List.sorted_insertionSort _ store, by decide⟩

/-! ### C6 — publishing the catalog -/

/-- When `row_number` points one past the sheet's last row — the invariant
the loop maintains — one iteration appends exactly the rendered row: the
appended plain row's Name cell is overwritten in place by the formula. -/
theorem publish_step_snoc (rows : List (List String)) (song : Song) :
    publish_step (⟨rows⟩, rows.length + 1) song =
      (⟨rows ++ [render_row song]⟩, rows.length + 2) := by
  unfold publish_step update_cell render_row
  simp only [Nat.add_sub_cancel]
  congr 2
  rw [List.getD_eq_getElem?_getD, List.getElem?_append_right (Nat.le_refl _)]
  rw [List.set_append_right _ _ (Nat.le_refl _)]
  simp [List.set]

/-- The publish loop appends one rendered row per entry, in order. -/
theorem publish_rows_eq (entries : List Song) :
    ∀ rows : List (List String),
      (entries.foldl publish_step (⟨rows⟩, rows.length + 1)).1 =
        ⟨rows ++ entries.map render_row⟩ := by
  induction entries with
  | nil => intro rows; simp
  | cons e es ih =>
    intro rows
    rw [List.foldl_cons, publish_step_snoc]
    have h2 : rows.length + 2 = (rows ++ [render_row e]).length + 1 := by
      simp
    rw [h2, ih (rows ++ [render_row e])]
    simp

/-- C6: publishing an ordered sequence of `N` entries onto the prepared
worksheet leaves exactly `N + 1` rows — the header, then for each `k` the
`k`-th entry rendered as `[artist, name, instrument, location, document_id]`
with the Name cell (column 2) holding the hyperlink formula whose target is
the entry's `link` and whose display text is the entry's `name` — and
`load_spreadsheet` is exactly this loop applied to the store's ordered
read-back. -/
theorem claim_C6 :
    ∀ (sheet : Sheet) (entries : List Song) (store : List Song),
      (publish_rows (setup_worksheet sheet) entries).rows =
        header_row :: entries.map render_row ∧
      (publish_rows (setup_worksheet sheet) entries).rows.length = entries.length + 1 ∧
      load_spreadsheet (setup_worksheet sheet) store =
        publish_rows (setup_worksheet sheet) (all_ordered store) := by
  intro sheet entries store
  have h : (publish_rows (setup_worksheet sheet) entries).rows =
      header_row :: entries.map render_row := by
    unfold publish_rows setup_worksheet
    have h1 := congrArg Sheet.rows (publish_rows_eq entries [header_row])
    simpa using h1
  exact ⟨h, by rw [h]; simp, rfl⟩

/-! ### C4 — the missing-worksheet abort -/

/-- A world in which the store file exists and the sheet has content. -/
def c4_world : World :=
  { store_file_exists := true, sheet := ⟨[["old cell"]]⟩ }

/-- C4, counterexample: with the destination sheet name absent from the
workbook, the run aborts with the `sys.exit` message and without touching the
sheet — but the pre-existing store file has already been deleted, because
`connect_to_database` (line 241) unlinks it before the worksheet check at
lines 244-250; the claim that no destructive action (including deleting an
existing store file) has taken effect is false. -/
theorem claim_C4_counterexample :
    (mainRun "Sheet1" ["Other"] empty_client [] c4_world).1 =
      some "did not find sheet in workbook: Sheet1" ∧
    c4_world.store_file_exists = true ∧
    (mainRun "Sheet1" ["Other"] empty_client [] c4_world).2.store_file_exists = false :=
  ⟨rfl, rfl, rfl⟩

/-- C4, amended: when the configured sheet name matches no worksheet, the
run aborts with the `sys.exit` message before the sheet-clearing step and
before the schema re-creation — the sheet grid is left untouched — but after
the database-connection step, which has already deleted any existing store
file. -/
theorem claim_C4_amended :
    ∀ (sheet_name : String) (titles : List String) (service : DriveClient)
      (index_paths : List Root) (w : World),
      find_worksheet titles sheet_name = none →
      (mainRun sheet_name titles service index_paths w).1 =
        some ("did not find sheet in workbook: " ++ sheet_name) ∧
      (mainRun sheet_name titles service index_paths w).2.sheet = w.sheet ∧
      (mainRun sheet_name titles service index_paths w).2.store_file_exists = false := by
  intro sheet_name titles service index_paths w h
  unfold mainRun
  rw [h]
  exact ⟨rfl, rfl, rfl⟩

/-- C4 witness: the amended theorem applied at the concrete aborting run. -/
theorem claim_C4_amended_witness :
    (mainRun "Sheet1" ["Other"] empty_client [] c4_world).1 =
      some ("did not find sheet in workbook: " ++ "Sheet1") ∧
    (mainRun "Sheet1" ["Other"] empty_client [] c4_world).2.sheet = c4_world.sheet ∧
    (mainRun "Sheet1" ["Other"] empty_client [] c4_world).2.store_file_exists = false :=
  claim_C4_amended "Sheet1" ["Other"] empty_client [] c4_world rfl

/-! ### C3 — the folder cache -/

/-- C3, counterexample: two successive children lookups of the same folder id
send two listing requests, not one, and store nothing in `FOLDER_CACHE` — the
cache declared at line 29 is never consulted or populated, so repeated
lookups are not served from memory as claimed. -/
theorem claim_C3_counterexample :
    (repeat_lookups empty_client "F" 2 ⟨[], 0⟩).fetch_count = 2 ∧
    (repeat_lookups empty_client "F" 2 ⟨[], 0⟩).fetch_count ≠ 1 ∧
    (repeat_lookups empty_client "F" 2 ⟨[], 0⟩).folder_cache = [] :=
  ⟨rfl, by decide, rfl⟩

/-- C3, amended: every children lookup — first or repeated — invokes the
remote fetch: each call to the listing helpers sends one more listing
request and leaves `FOLDER_CACHE` untouched, so `n` lookups of the same
folder id cost `n` remote calls; the number of remote calls equals the
number of lookups performed, not the number of distinct folders visited. -/
theorem claim_C3_amended :
    ∀ (service : DriveClient) (folder_id : String) (st : RunState) (n : Nat),
      (get_files_counted service folder_id st).1 = get_files service folder_id ∧
      (get_files_counted service folder_id st).2.fetch_count = st.fetch_count + 1 ∧
      (get_files_counted service folder_id st).2.folder_cache = st.folder_cache ∧
      (get_folders_counted service folder_id st).1 = get_folders service folder_id ∧
      (get_folders_counted service folder_id st).2.fetch_count = st.fetch_count + 1 ∧
      (get_folders_counted service folder_id st).2.folder_cache = st.folder_cache ∧
      (repeat_lookups service folder_id n st).fetch_count = st.fetch_count + n ∧
      (repeat_lookups service folder_id n st).folder_cache = st.folder_cache := by
  intro service folder_id st n
  refine ⟨rfl, rfl, rfl, rfl, rfl, rfl, ?_, ?_⟩
  · induction n generalizing st with
    | zero => rfl
    | succ n ih =>
      rw [repeat_lookups, ih]
      simp [get_files_counted, Nat.add_assoc, Nat.add_comm 1 n]
  · induction n generalizing st with
    | zero => rfl
    | succ n ih =>
      rw [repeat_lookups, ih]
      rfl
